import Mathlib

/-!
Verification of the Bolt-Ride real-time trip processing pipeline.

Shallow embedding of the Python sources:
  * `src/data-processing/lambda_functions/lambda_processor.py` — the
    correlation engine (per-event state machine over the `trip_state`
    DynamoDB table, with a quarantine table for anomalies);
  * `src/data-processing/lambda_functions/agregate_daily_kpis.py` — the
    daily KPI aggregator (scan, group by dropoff date, compute fare
    statistics, write one S3 object per date);
  * `src/data-processing/lambda_functions/monitor_data_quality.py` — the
    periodic data-quality sweep (staleness, duplicates, orphans,
    suspicious fares; one batched SNS alert per sweep);
  * `src/local-dev/processor/src/trip_processor.py` — the local
    processor (only the completion-date derivation of `_process_trip_end`
    is needed here).

Modelling conventions: Python/JSON values are `PyVal` (numbers are exact
rationals standing in for Python floats; every numeric computation a claim
evaluates is exact at the inputs involved, so no binary-float rounding is
observable).  DynamoDB tables are association lists keyed by strings, the
S3 bucket is a function from object key to optional content.  Python
exceptions are the `Except` monad: an `.error` escaping a function models
an uncaught Python exception, and code wrapped in `try/except Exception`
in the source is modelled by matching on the `Except` result.
-/

/-- A Python/JSON value as it flows through the pipeline: `None`, strings,
numbers (modelled as exact rationals), and string-keyed dicts. -/
inductive PyVal where
  | pnone : PyVal
  | str : String → PyVal
  | num : ℚ → PyVal
  | dict : List (String × PyVal) → PyVal

/-- A Python dict with string keys. -/
abbrev PyDict := List (String × PyVal)

/-- The Python exception kinds that the embedded code can raise. -/
inductive PyErr where
  | attributeError : PyErr
  | typeError : PyErr
  | valueError : PyErr
  | keyError : PyErr
deriving DecidableEq

/-- Rendering of an exception used by `f-string` interpolation of `str(e)`
in `lambda_processor.quarantine` call sites. -/
def errText : PyErr → String
  | .attributeError => "AttributeError"
  | .typeError => "TypeError"
  | .valueError => "ValueError"
  | .keyError => "KeyError"

/-- Lookup in a Python dict (first matching key). -/
def dlookup : PyDict → String → Option PyVal
  | [], _ => Option.none
  | (k, v) :: r, key => if k = key then Option.some v else dlookup r key

/-- Python `x.get(key)` with default `None`: only dicts have `.get`;
any other receiver raises `AttributeError`. -/
def pyGet : PyVal → String → Except PyErr PyVal
  | .dict d, k => .ok ((dlookup d k).getD .pnone)
  | _, _ => .error .attributeError

/-- Python `x.get(key, default)`. -/
def pyGetD : PyVal → String → PyVal → Except PyErr PyVal
  | .dict d, k, dflt => .ok ((dlookup d k).getD dflt)
  | _, _, _ => .error .attributeError

/-- Python `x[key]` subscription on a dict: `KeyError` when the key is
absent, `TypeError` when the receiver is not subscriptable by a string. -/
def pyIndex : PyVal → String → Except PyErr PyVal
  | .dict d, k =>
    match dlookup d k with
    | Option.some v => .ok v
    | Option.none => .error .keyError
  | _, _ => .error .typeError

/-- Python truthiness: `None`, `""`, `0` and `{}` are falsy. -/
def truthy : PyVal → Bool
  | .pnone => false
  | .str s => !(decide (s = ""))
  | .num q => !(decide (q = 0))
  | .dict d => !d.isEmpty

/-- Python `x == "lit"` for a value compared against a string literal. -/
def pyEqStr : PyVal → String → Bool
  | .str s, t => decide (s = t)
  | _, _ => false

/-- Splits a character list at every occurrence of `c`; the model of
Python `s.split(c)` for a one-character separator (`"a b".split(" ") =
["a", "b"]`, `"".split(" ") = [""]`). -/
def splitOnChar (c : Char) : List Char → List (List Char)
  | [] => [[]]
  | x :: xs =>
    match splitOnChar c xs with
    | [] => if x = c then [[], [x]] else [[x]]
    | h :: t => if x = c then [] :: h :: t else (x :: h) :: t

/-- Reads a non-empty all-digit character list as a natural number. -/
def digitsToNat : List Char → Option Nat
  | [] => Option.none
  | l => l.foldl
      (fun acc c =>
        match acc with
        | Option.none => Option.none
        | Option.some n => if c.isDigit then Option.some (n * 10 + (c.toNat - 48)) else Option.none)
      (Option.some 0)

/-- Unsigned decimal literal `digits[.digits]` as an exact rational. -/
def parseUnsignedDecimal (l : List Char) : Option ℚ :=
  match splitOnChar '.' l with
  | [w] => (digitsToNat w).map (fun n => (n : ℚ))
  | [w, f] =>
    match digitsToNat w, digitsToNat f with
    | Option.some n, Option.some m => Option.some ((n : ℚ) + (m : ℚ) / (10 : ℚ) ^ f.length)
    | _, _ => Option.none
  | _ => Option.none

/-- Signed decimal literal.  This models the plain-decimal fragment of
Python `float(str)`; exponent notation, `inf`/`nan` and padding
whitespace are out of scope and fall to `ValueError`, which no claim
exercises. -/
def parseDecimal : List Char → Option ℚ
  | '-' :: rest => (parseUnsignedDecimal rest).map (fun q => -q)
  | '+' :: rest => parseUnsignedDecimal rest
  | l => parseUnsignedDecimal l

/-- Python `float(x)`: numbers pass through exactly, decimal strings are
parsed, `None` and dicts raise `TypeError`, unparseable strings raise
`ValueError`. -/
def pyFloat : PyVal → Except PyErr ℚ
  | .num q => .ok q
  | .str s =>
    match parseDecimal s.data with
    | Option.some q => .ok q
    | Option.none => .error .valueError
  | .pnone => .error .typeError
  | .dict _ => .error .typeError

/-- Association-list lookup for string-keyed stores. -/
def getAssoc {α : Type} : List (String × α) → String → Option α
  | [], _ => Option.none
  | (k, v) :: r, key => if k = key then Option.some v else getAssoc r key

/-- Association-list overwrite-or-insert for string-keyed stores. -/
def putAssoc {α : Type} : List (String × α) → String → α → List (String × α)
  | [], key, v => [(key, v)]
  | (k, old) :: r, key, v => if k = key then (k, v) :: r else (k, old) :: putAssoc r key v

/-- A row of the `trip_state` DynamoDB table with the attributes written
by `lambda_processor.py` (`update_item` creates the item when absent and
sets only the listed attributes, so every attribute is optional). -/
structure TripItem where
  pickup_datetime : Option PyVal := Option.none
  estimated_fare_amount : Option ℚ := Option.none
  trip_start_data : Option PyVal := Option.none
  dropoff_datetime : Option PyVal := Option.none
  fare_amount : Option ℚ := Option.none
  trip_end_data : Option PyVal := Option.none
  state : Option String := Option.none

/-- The `trip_state` table.  Its key schema declares `trip_id` as a
string attribute; the storage layer rejects a key of any other type, which
`asKey` models. -/
abbrev TripTable := List (String × TripItem)

/-- A row of the quarantine table as written by
`lambda_processor.quarantine` (`put_item` with `trip_id`, `event_type`,
`reason`, `raw_payload`, `ingest_time`).  The table is modelled as an
append-only list. -/
structure QuarantineItem where
  trip_id : PyVal
  event_type : PyVal
  reason : String
  raw_payload : PyVal
  ingest_time : String

/-- The store state the correlation engine reads and writes. -/
structure EngineState where
  trip_state : TripTable
  quarantined : List QuarantineItem

/-- DynamoDB key coercion: the `trip_id` key of `trip_state` is a string;
passing any other value raises a client-side validation error. -/
def asKey : PyVal → Except PyErr String
  | .str s => .ok s
  | _ => .error .typeError

/-- `quarantine(trip_id, raw_event, reason)` of `lambda_processor.py`.
`now` stands for `datetime.utcnow()` (used both for the synthesized id of
a falsy `trip_id` and for `ingest_time`).  `raw_event.get` is modelled
totally on non-dicts; every call site passes a dict there. -/
def quarantine (now : String) (trip_id : PyVal) (raw_event : PyVal) (reason : String) :
    QuarantineItem :=
  { trip_id := if truthy trip_id then trip_id else .str ("unknown-" ++ now)
    event_type :=
      match raw_event with
      | .dict d => (dlookup d "event_type").getD (.str "UNKNOWN")
      | _ => .str "UNKNOWN"
    reason := reason
    raw_payload := raw_event
    ingest_time := now }

/-- `handle_trip_start(trip_id, event_data)` of `lambda_processor.py`:
one `update_item` that sets `pickup_datetime`, `estimated_fare_amount`
(`float(...)`), `trip_start_data` and `state = if_not_exists(state,
"PARTIAL")`, creating the item when absent. -/
def handle_trip_start (st : EngineState) (trip_id : PyVal) (event_data : PyVal) :
    Except PyErr EngineState :=
  match pyGet event_data "pickup_datetime" with
  | .error e => .error e
  | .ok pickup =>
  match pyGetD event_data "estimated_fare_amount" (.num 0) with
  | .error e => .error e
  | .ok fareV =>
  match pyFloat fareV with
  | .error e => .error e
  | .ok fare =>
  match asKey trip_id with
  | .error e => .error e
  | .ok key =>
    let old := (getAssoc st.trip_state key).getD {}
    let upd : TripItem :=
      { old with
        pickup_datetime := Option.some pickup
        estimated_fare_amount := Option.some fare
        trip_start_data := Option.some event_data
        state := Option.some (old.state.getD "PARTIAL") }
    .ok { st with trip_state := putAssoc st.trip_state key upd }

/-- `handle_trip_end(trip_id, event_data)` of `lambda_processor.py`:
`get_item`; when absent, quarantine as `ORPHAN_END` and return; otherwise
one `update_item` that sets `dropoff_datetime`, `fare_amount`
(`float(...)`), `trip_end_data` and `state = "COMPLETE"`
unconditionally. -/
def handle_trip_end (now : String) (st : EngineState) (trip_id : PyVal) (event_data : PyVal) :
    Except PyErr EngineState :=
  match asKey trip_id with
  | .error e => .error e
  | .ok key =>
  match getAssoc st.trip_state key with
  | Option.none =>
    .ok { st with quarantined := st.quarantined ++ [quarantine now trip_id event_data "ORPHAN_END"] }
  | Option.some old =>
    match pyGet event_data "dropoff_datetime" with
    | .error e => .error e
    | .ok dropoff =>
    match pyGetD event_data "fare_amount" (.num 0) with
    | .error e => .error e
    | .ok fareV =>
    match pyFloat fareV with
    | .error e => .error e
    | .ok fare =>
      let upd : TripItem :=
        { old with
          dropoff_datetime := Option.some dropoff
          fare_amount := Option.some fare
          trip_end_data := Option.some event_data
          state := Option.some "COMPLETE" }
      .ok { st with trip_state := putAssoc st.trip_state key upd }

/-- Body of the per-record loop of `lambda_handler` in
`lambda_processor.py` for one decoded Kinesis payload.  Note the source
reads `payload.get("event_type")`, `payload.get("data")` and
`event_data.get("trip_id")` before the schema check and outside the
`try`, so a missing or non-dict `data` raises an uncaught
`AttributeError`; only the `handle_*` dispatch is inside `try/except
Exception`, whose handler quarantines with a `PROCESSING_ERROR: ...`
reason.  The state store is not modified when a handler raises, because
`float(...)` is evaluated before the single `update_item` call. -/
def process_record (now : String) (st : EngineState) (payload : PyVal) :
    Except PyErr EngineState :=
  match pyGet payload "event_type" with
  | .error e => .error e
  | .ok event_type =>
  match pyGet payload "data" with
  | .error e => .error e
  | .ok event_data =>
  match pyGet event_data "trip_id" with
  | .error e => .error e
  | .ok trip_id =>
  if !truthy event_type || !truthy event_data || !truthy trip_id then
    .ok { st with
      quarantined := st.quarantined ++ [quarantine now (.str "UNKNOWN") payload "INVALID_SCHEMA"] }
  else
    let attempt : Except PyErr EngineState :=
      if pyEqStr event_type "trip_start" then handle_trip_start st trip_id event_data
      else if pyEqStr event_type "trip_end" then handle_trip_end now st trip_id event_data
      else
        .ok { st with
          quarantined := st.quarantined ++ [quarantine now trip_id payload "UNKNOWN_EVENT_TYPE"] }
    match attempt with
    | .ok stNew => .ok stNew
    | .error e =>
      .ok { st with
        quarantined :=
          st.quarantined ++ [quarantine now trip_id payload ("PROCESSING_ERROR: " ++ errText e)] }

/-- `lambda_handler(event, context)` of `lambda_processor.py` over the
already-JSON-decoded Kinesis payloads of `event["Records"]` (the
transport envelope decoding is outside the model).  Returns the final
store state plus the `statusCode` of the returned dict; an uncaught
exception in any record aborts the batch. -/
def lambda_handler (now : String) (st : EngineState) :
    List PyVal → Except PyErr (EngineState × Nat)
  | [] => .ok (st, 200)
  | r :: rs =>
    match process_record now st r with
    | .error e => .error e
    | .ok stNew => lambda_handler now stNew rs

/-- A `payload` as produced by `json.loads(record["kinesis"]["data"])`
for a well-formed producer event: an `event_type` tag plus a `data`
body. -/
def mkPayload (ty : String) (d : PyVal) : PyVal :=
  .dict [("event_type", .str ty), ("data", d)]

/-- The dict produced by `calculate_kpis` in `agregate_daily_kpis.py`. -/
structure KpiOutput where
  total_fare : ℚ
  count_trips : Nat
  average_fare : ℚ
  max_fare : ℚ
  min_fare : ℚ

/-- Python `sum` over a fare list (left fold from `0`). -/
def listSum (l : List ℚ) : ℚ := l.foldl (fun a b => a + b) 0

/-- Python `max` over a non-empty fare list (the `0` default for `[]` is
supplied by the `if fares else 0` guard at the call site). -/
def listMax : List ℚ → ℚ
  | [] => 0
  | x :: xs => xs.foldl max x

/-- Python `min` over a non-empty fare list. -/
def listMin : List ℚ → ℚ
  | [] => 0
  | x :: xs => xs.foldl min x

/-- Python `round(q, 2)` on the exact rational model.  Mathlib `round`
rounds half away from zero while Python rounds half to even, but every
value a claim evaluates has `q * 100` integral, where all conventions
coincide. -/
def round2 (q : ℚ) : ℚ := round (q * 100) / 100

/-- `float(trip["trip_end"]["fare_amount"])` for one scanned row. -/
def tripFare (trip : PyDict) : Except PyErr ℚ :=
  match pyIndex (.dict trip) "trip_end" with
  | .error e => .error e
  | .ok te =>
    match pyIndex te "fare_amount" with
    | .error e => .error e
    | .ok v => pyFloat v

/-- The list comprehension `[float(trip["trip_end"]["fare_amount"]) for
trip in trips]`; the first failing element aborts it. -/
def extractFares : List PyDict → Except PyErr (List ℚ)
  | [] => .ok []
  | t :: ts =>
    match tripFare t with
    | .error e => .error e
    | .ok f =>
      match extractFares ts with
      | .error e => .error e
      | .ok fs => .ok (f :: fs)

/-- `calculate_kpis(trips)` of `agregate_daily_kpis.py`. -/
def calculate_kpis (trips : List PyDict) : Except PyErr KpiOutput :=
  match extractFares trips with
  | .error e => .error e
  | .ok fares =>
    .ok
      { total_fare := listSum fares
        count_trips := fares.length
        average_fare := if fares.isEmpty then 0 else round2 (listSum fares / fares.length)
        max_fare := if fares.isEmpty then 0 else listMax fares
        min_fare := if fares.isEmpty then 0 else listMin fares }

/-- `defaultdict(list)` grouping step: append `t` to the group of `key`,
creating the group at the end on first sight (Python dicts preserve
insertion order). -/
def addToGroup (g : List (String × List PyDict)) (key : String) (t : PyDict) :
    List (String × List PyDict) :=
  match g with
  | [] => [(key, [t])]
  | (k, ts) :: r => if k = key then (k, ts ++ [t]) :: r else (k, ts) :: addToGroup r key t

/-- `dropoff_datetime.split(" ")[0]` — the grouping key of
`group_by_date`. -/
def dateKey (s : String) : String := ((splitOnChar ' ' s.data).headD []).asString

/-- Loop of `group_by_date(trips)` with accumulator `g`: for each trip,
`trip["trip_end"].get("dropoff_datetime")`; falsy values are skipped,
non-string values raise on `.split`. -/
def group_by_date_from (g : List (String × List PyDict)) :
    List PyDict → Except PyErr (List (String × List PyDict))
  | [] => .ok g
  | trip :: rest =>
    match pyIndex (.dict trip) "trip_end" with
    | .error e => .error e
    | .ok te =>
      match pyGet te "dropoff_datetime" with
      | .error e => .error e
      | .ok dd =>
        if truthy dd then
          match dd with
          | .str s => group_by_date_from (addToGroup g (dateKey s) trip) rest
          | _ => .error .attributeError
        else group_by_date_from g rest

/-- `group_by_date(trips)` of `agregate_daily_kpis.py`. -/
def group_by_date (trips : List PyDict) : Except PyErr (List (String × List PyDict)) :=
  group_by_date_from [] trips

/-- The S3 output prefix as a store: object key (the date) to content. -/
abbrev S3Store := String → Option KpiOutput

/-- `write_to_s3(date, kpi)`: full overwrite of the object for `date`. -/
def write_to_s3 (s3 : S3Store) (date : String) (kpi : KpiOutput) : S3Store :=
  fun key => if key = date then Option.some kpi else s3 key

/-- The output loop of `main()`: one `write_to_s3` per grouped date, in
grouping order; a failing `calculate_kpis` aborts the loop. -/
def writeAllKpis (s3 : S3Store) :
    List (String × List PyDict) → Except PyErr S3Store
  | [] => .ok s3
  | (date, ts) :: rest =>
    match calculate_kpis ts with
    | .error e => .error e
    | .ok kpi => writeAllKpis (write_to_s3 s3 date kpi) rest

/-- `main()` of `agregate_daily_kpis.py` applied to the scanned completed
trips: group by dropoff date, compute the KPIs per date, overwrite the
per-date S3 objects.  No other state is read or written: the aggregation
carries no counters between runs. -/
def aggregation_main (trips : List PyDict) (s3 : S3Store) : Except PyErr S3Store :=
  match group_by_date trips with
  | .error e => .error e
  | .ok grouped => writeAllKpis s3 grouped

/-- The empty S3 prefix. -/
def emptyS3 : S3Store := fun _ => Option.none

/-- Gregorian leap year. -/
def isLeapYear (y : ℤ) : Bool :=
  (if y % 4 = 0 then true else false) &&
    ((if y % 100 = 0 then false else true) || (if y % 400 = 0 then true else false))

/-- Length of a month, as validated by `datetime`. -/
def monthLength (y m : ℤ) : ℤ :=
  if m = 2 then (if isLeapYear y then 29 else 28)
  else if m = 4 ∨ m = 6 ∨ m = 9 ∨ m = 11 then 30
  else 31

/-- Days from 1970-01-01 to the civil date `y-m-d` (standard
days-from-civil computation; exact for the validated year range). -/
def daysFromCivil (y m d : ℤ) : ℤ :=
  let yAdj := if m ≤ 2 then y - 1 else y
  let era := (if 0 ≤ yAdj then yAdj else yAdj - 399) / 400
  let yoe := yAdj - era * 400
  let mp := if 2 < m then m - 3 else m + 9
  let doy := (153 * mp + 2) / 5 + d - 1
  let doe := yoe * 365 + yoe / 4 - yoe / 100 + doy
  era * 146097 + doe - 719468

/-- Seconds from the epoch of the timestamp `y-m-d h:mi:s`; the common
timeline on which `datetime` subtraction and `timedelta` comparison are
exact. -/
def toSeconds (y m d h mi s : ℤ) : ℤ :=
  daysFromCivil y m d * 86400 + h * 3600 + mi * 60 + s

/-- Range validation performed by `datetime` on a civil date. -/
def validDate (y m d : ℤ) : Bool :=
  (if 1 ≤ y ∧ y ≤ 9999 ∧ 1 ≤ m ∧ m ≤ 12 ∧ 1 ≤ d then true else false) &&
    (if d ≤ monthLength y m then true else false)

/-- `datetime.strptime(s, "%Y-%m-%d %H:%M:%S")`, returned as epoch
seconds; `Option.none` models the `ValueError` on any mismatch. -/
def strptimeYmdHms (s : String) : Option ℤ :=
  match splitOnChar ' ' s.data with
  | [datePart, timePart] =>
    match splitOnChar '-' datePart, splitOnChar ':' timePart with
    | [ys, ms, ds], [hs, mis, ss] =>
      match digitsToNat ys, digitsToNat ms, digitsToNat ds,
          digitsToNat hs, digitsToNat mis, digitsToNat ss with
      | Option.some y, Option.some m, Option.some d,
        Option.some h, Option.some mi, Option.some sec =>
        if validDate y m d ∧ h ≤ 23 ∧ mi ≤ 59 ∧ sec ≤ 61 then
          Option.some (toSeconds y m d h mi sec)
        else Option.none
      | _, _, _, _, _, _ => Option.none
    | _, _ => Option.none
  | _ => Option.none

mutual

/-- Python `==` between two values (structural equality), used by the
`seen_trip_ids` set membership of the monitor. -/
def pyBeq : PyVal → PyVal → Bool
  | .pnone, .pnone => true
  | .str a, .str b => decide (a = b)
  | .num a, .num b => decide (a = b)
  | .dict a, .dict b => pyBeqDict a b
  | _, _ => false

/-- Structural equality of dicts as ordered association lists. -/
def pyBeqDict : List (String × PyVal) → List (String × PyVal) → Bool
  | [], [] => true
  | (k, v) :: r, (k2, v2) :: r2 => decide (k = k2) && pyBeq v v2 && pyBeqDict r r2
  | _, _ => false

end

/-- Membership in the `seen_trip_ids` set. -/
def pyMem (v : PyVal) : List PyVal → Bool
  | [] => false
  | x :: xs => pyBeq v x || pyMem v xs

/-- A record built by `log_issue(trip_id, issue, data)` of
`monitor_data_quality.py`: written to the quarantine table and appended
to `issues_logged`. -/
structure IssueRecord where
  trip_id : PyVal
  reason : String
  raw_payload : PyDict
  ingest_time : String

/-- The SNS message built by `send_alert`: the total count and, to limit
the message size, only the first 10 issue records
(`issues_logged[:10]`). -/
structure AlertMessage where
  total_issues : Nat
  issues : List IssueRecord

/-- `send_alert()` of `monitor_data_quality.py`: publishes nothing when
`issues_logged` is empty, otherwise exactly one SNS message. -/
def send_alert (issues : List IssueRecord) : List AlertMessage :=
  if issues.isEmpty then [] else [{ total_issues := issues.length, issues := issues.take 10 }]

/-- Duplicate-`trip_id` check of the sweep loop: flag when already seen,
otherwise remember the id. -/
def dupCheck (nowStr : String) (seen : List PyVal) (trip_id : PyVal) (item : PyDict) :
    List PyVal × List IssueRecord :=
  if pyMem trip_id seen then
    (seen, [{ trip_id := trip_id, reason := "Duplicate trip_id", raw_payload := item,
              ingest_time := nowStr }])
  else (seen ++ [trip_id], [])

/-- Staleness check of the sweep loop: for `status == "started"`, parse
`start["pickup_datetime"]` with `strptime("%Y-%m-%d %H:%M:%S")` inside a
`try`; flag when the sweep time is more than `THRESHOLD_HOURS = 6` hours
later; any lookup/parse failure is itself flagged (the interpolated
exception text of the `f`-string reason is elided). -/
def staleCheck (nowSec : ℤ) (nowStr : String) (trip_id : PyVal) (status : PyVal)
    (start : PyVal) (item : PyDict) : List IssueRecord :=
  if pyEqStr status "started" then
    match start with
    | .dict sd =>
      match dlookup sd "pickup_datetime" with
      | Option.some (.str pd) =>
        match strptimeYmdHms pd with
        | Option.some t =>
          if nowSec - t > 21600 then
            [{ trip_id := trip_id, reason := "Trip has not ended after 6+ hours",
               raw_payload := item, ingest_time := nowStr }]
          else []
        | Option.none =>
          [{ trip_id := trip_id, reason := "Invalid start datetime format",
             raw_payload := item, ingest_time := nowStr }]
      | _ =>
        [{ trip_id := trip_id, reason := "Invalid start datetime format",
           raw_payload := item, ingest_time := nowStr }]
    | _ =>
      [{ trip_id := trip_id, reason := "Invalid start datetime format",
         raw_payload := item, ingest_time := nowStr }]
  else []

/-- Orphan-completion check: `status == "completed" and not start`. -/
def orphanCheck (nowStr : String) (trip_id : PyVal) (status : PyVal) (start : PyVal)
    (item : PyDict) : List IssueRecord :=
  if pyEqStr status "completed" && !truthy start then
    [{ trip_id := trip_id, reason := "Trip has trip_end but no trip_start",
       raw_payload := item, ingest_time := nowStr }]
  else []

/-- Fare-sanity check: `if end and "fare_amount" in end`, then
`float(end["fare_amount"])` inside a `try`; a fare outside `[1, 500]` is
flagged as suspicious and a float failure as invalid.  A truthy
non-container `end` makes the bare `in` raise an uncaught `TypeError`; a
truthy string performs a substring test. -/
def fareCheck (nowStr : String) (trip_id : PyVal) (endv : PyVal) (item : PyDict) :
    Except PyErr (List IssueRecord) :=
  if truthy endv then
    match endv with
    | .dict ed =>
      match dlookup ed "fare_amount" with
      | Option.some fv =>
        match pyFloat fv with
        | .ok fare =>
          if fare < 1 ∨ fare > 500 then
            .ok [{ trip_id := trip_id, reason := "Suspicious fare", raw_payload := item,
                   ingest_time := nowStr }]
          else .ok []
        | .error _ =>
          .ok [{ trip_id := trip_id, reason := "Invalid fare value", raw_payload := item,
                 ingest_time := nowStr }]
      | Option.none => .ok []
    | .str s =>
      if decide ("fare_amount".data <:+: s.data) then .error .typeError else .ok []
    | _ => .error .typeError
  else .ok []

/-- One iteration of the sweep loop of `lambda_handler` in
`monitor_data_quality.py`: read `trip_id`, `status`,
`trip_start`/`trip_end` (with `{}` defaults), then run the four checks in
source order.  On an uncaught error the issues already logged by this
iteration are preserved (they were written before the raise). -/
def checkItem (nowSec : ℤ) (nowStr : String) (seen : List PyVal) (item : PyDict) :
    Except (PyErr × List IssueRecord) (List PyVal × List IssueRecord) :=
  let trip_id := (dlookup item "trip_id").getD .pnone
  let status := (dlookup item "status").getD .pnone
  let start := (dlookup item "trip_start").getD (.dict [])
  let endv := (dlookup item "trip_end").getD (.dict [])
  let seenDup := dupCheck nowStr seen trip_id item
  let stale := staleCheck nowSec nowStr trip_id status start item
  let orphan := orphanCheck nowStr trip_id status start item
  match fareCheck nowStr trip_id endv item with
  | .error e => .error (e, seenDup.2 ++ stale ++ orphan)
  | .ok fare => .ok (seenDup.1, seenDup.2 ++ stale ++ orphan ++ fare)

/-- The sweep loop over the scanned items, threading the seen-id set and
the `issues_logged` accumulator; an uncaught error carries the issues
logged so far (each was persisted by `log_issue` before the raise). -/
def sweepItems (nowSec : ℤ) (nowStr : String) (seen : List PyVal) (acc : List IssueRecord) :
    List PyDict → Except (PyErr × List IssueRecord) (List IssueRecord)
  | [] => .ok acc
  | item :: rest =>
    match checkItem nowSec nowStr seen item with
    | .error (e, iss) => .error (e, acc ++ iss)
    | .ok (seen2, iss) => sweepItems nowSec nowStr seen2 (acc ++ iss) rest

/-- The external state the monitor touches: the scanned `trip_state`
items, the quarantine table and the SNS alert channel. -/
structure MonitorState where
  trip_state_items : List PyDict
  quarantined : List IssueRecord
  alerts : List AlertMessage

/-- `lambda_handler` of `monitor_data_quality.py`: scan, run the checks
per item, then `send_alert()`.  The source contains no write to
`trip_state` — its only writes are quarantine `put_item`s and at most one
`sns.publish`.  Returns the new state plus the uncaught exception, if
any (in which case `send_alert` is never reached). -/
def monitor_run (nowSec : ℤ) (nowStr : String) (st : MonitorState) :
    MonitorState × Option PyErr :=
  match sweepItems nowSec nowStr [] [] st.trip_state_items with
  | .error (e, acc) => ({ st with quarantined := st.quarantined ++ acc }, Option.some e)
  | .ok issues =>
    ({ st with
        quarantined := st.quarantined ++ issues
        alerts := st.alerts ++ send_alert issues }, Option.none)

/-- Replaces every `Z` by `+00:00`; Python
`timestamp.replace('Z', '+00:00')` in `_process_trip_end`. -/
def replaceZ : List Char → List Char
  | [] => []
  | c :: r => if c = 'Z' then '+' :: '0' :: '0' :: ':' :: '0' :: '0' :: replaceZ r else c :: replaceZ r

/-- The `YYYY-MM-DD` date part accepted by `datetime.fromisoformat`. -/
def validIsoDate (l : List Char) : Bool :=
  match splitOnChar '-' l with
  | [ys, ms, ds] =>
    (if ys.length = 4 ∧ ms.length = 2 ∧ ds.length = 2 then true else false) &&
      (match digitsToNat ys, digitsToNat ms, digitsToNat ds with
       | Option.some y, Option.some m, Option.some d => validDate y m d
       | _, _, _ => false)
  | _ => false

/-- An `HH:MM:SS` time-of-day. -/
def validTimeOfDay (l : List Char) : Bool :=
  match splitOnChar ':' l with
  | [hs, mis, ss] =>
    (if hs.length = 2 ∧ mis.length = 2 ∧ ss.length = 2 then true else false) &&
      (match digitsToNat hs, digitsToNat mis, digitsToNat ss with
       | Option.some h, Option.some mi, Option.some sec =>
         if h ≤ 23 ∧ mi ≤ 59 ∧ sec ≤ 59 then true else false
       | _, _, _ => false)
  | _ => false

/-- An `HH:MM` UTC-offset tail. -/
def validOffset (l : List Char) : Bool :=
  match splitOnChar ':' l with
  | [hs, mis] =>
    (if hs.length = 2 ∧ mis.length = 2 then true else false) &&
      (match digitsToNat hs, digitsToNat mis with
       | Option.some h, Option.some mi => if h ≤ 23 ∧ mi ≤ 59 then true else false
       | _, _ => false)
  | _ => false

/-- `datetime.fromisoformat(ts.replace('Z', '+00:00')).date().isoformat()`
from `_process_trip_end` of `trip_processor.py`: the calendar-date part of
a `YYYY-MM-DDTHH:MM:SS[+HH:MM]` timestamp; `Option.none` models the
`ValueError` on anything else (negative offsets, which no claim uses, also
fall there). -/
def completionDateOf (ts : String) : Option String :=
  match splitOnChar 'T' (replaceZ ts.data) with
  | [datePart, timePart] =>
    if validIsoDate datePart then
      let timeOk :=
        match splitOnChar '+' timePart with
        | [base, off] => validTimeOfDay base && validOffset off
        | [base] => validTimeOfDay base
        | _ => false
      if timeOk then Option.some datePart.asString else Option.none
    else Option.none
  | _ => Option.none

/-- A row of the local processor's `trip_state` SQLite table
(`trip_processor.py`); `update_trip_state` is an `INSERT OR REPLACE` of
the whole row. -/
structure LocalTripRow where
  status : String
  trip_start_data : Option PyVal
  trip_end_data : Option PyVal
  completion_date : Option String

/-- `_process_trip_start` of `trip_processor.py`: full-row replace with
status `in_progress` and the start payload. -/
def process_trip_start_local (db : List (String × LocalTripRow)) (tid : String)
    (startData : PyVal) : List (String × LocalTripRow) :=
  putAssoc db tid
    { status := "in_progress", trip_start_data := Option.some startData,
      trip_end_data := Option.none, completion_date := Option.none }

/-- `_process_trip_end` of `trip_processor.py`: derive `completion_date`
from the event timestamp, keep the existing start data (or create a
minimal orphan state), set status `completed` and store the end payload;
`Option.none` models the `ValueError` of `fromisoformat` propagating to
the caller. -/
def process_trip_end_local (db : List (String × LocalTripRow)) (tid : String)
    (timestamp : String) (endData : PyVal) :
    Option (List (String × LocalTripRow) × String) :=
  match completionDateOf timestamp with
  | Option.none => Option.none
  | Option.some cd =>
    let base := (getAssoc db tid).getD
      { status := "completed", trip_start_data := Option.none,
        trip_end_data := Option.none, completion_date := Option.none }
    Option.some
      (putAssoc db tid
        { base with
          status := "completed"
          trip_end_data := Option.some endData
          completion_date := Option.some cd }, cd)

/-- Start payload of the spec's worked scenario for trip `T1`. -/
def startDataT1 : PyDict :=
  [("trip_id", .str "T1"), ("estimated_fare_amount", .num 34.18),
   ("pickup_datetime", .str "2024-05-25T13:19:00Z")]

/-- End payload of the spec's worked scenario for trip `T1`. -/
def endDataT1 : PyDict :=
  [("trip_id", .str "T1"), ("fare_amount", .num 40.09),
   ("dropoff_datetime", .str "2024-05-25T14:05:00Z")]

/-- A different end payload for the same trip (duplicate-end probe). -/
def endDataT1b : PyDict :=
  [("trip_id", .str "T1"), ("fare_amount", .num 50),
   ("dropoff_datetime", .str "2024-05-25T15:00:00Z")]

/-- The `trip_state` row for `T1` after the engine has applied
`startDataT1` and then `endDataT1`. -/
def itemT1complete : TripItem :=
  { pickup_datetime := Option.some (.str "2024-05-25T13:19:00Z")
    estimated_fare_amount := Option.some 34.18
    trip_start_data := Option.some (.dict startDataT1)
    dropoff_datetime := Option.some (.str "2024-05-25T14:05:00Z")
    fare_amount := Option.some 40.09
    trip_end_data := Option.some (.dict endDataT1)
    state := Option.some "COMPLETE" }

/-- An engine state holding the completed `T1` record and an empty
quarantine table. -/
def stT1complete : EngineState :=
  { trip_state := [("T1", itemT1complete)], quarantined := [] }

/-- The scanned `trip_state` row for the completed scenario trip in the
schema the aggregator reads (`status`/`trip_start`/`trip_end`). -/
def tripRowT1 : PyDict :=
  [("trip_id", .str "T1"), ("status", .str "completed"),
   ("trip_start", .dict [("pickup_datetime", .str "2024-05-25T13:19:00Z"),
                         ("estimated_fare_amount", .num 34.18)]),
   ("trip_end", .dict [("dropoff_datetime", .str "2024-05-25T14:05:00Z"),
                       ("fare_amount", .num 40.09)])]

/-- The KPI dict the claim expects for the single 40.09 fare. -/
def kpiT1 : KpiOutput :=
  { total_fare := 40.09, count_trips := 1, average_fare := 40.09,
    max_fare := 40.09, min_fare := 40.09 }

/-- A completed row whose dropoff uses the space-separated format the
aggregator's `split(" ")[0]` expects. -/
def tripRowSpace : PyDict :=
  [("trip_id", .str "T9"), ("status", .str "completed"),
   ("trip_end", .dict [("dropoff_datetime", .str "2024-06-01 09:30:00"),
                       ("fare_amount", .num 12.5)])]

/-- The KPI dict for the single 12.5 fare of `tripRowSpace`. -/
def kpiSpace : KpiOutput :=
  { total_fare := 12.5, count_trips := 1, average_fare := 12.5,
    max_fare := 12.5, min_fare := 12.5 }

/-- A `PARTIAL`-analog monitor row: status `started` with a pickup seven
hours before the sweep instant `nowSecSweep`. -/
def staleItemT3 : PyDict :=
  [("trip_id", .str "T3"), ("status", .str "started"),
   ("trip_start", .dict [("pickup_datetime", .str "2024-05-25 06:00:00")])]

/-- Sweep instant 2024-05-25 13:00:00 (seven hours after the pickup of
`staleItemT3`). -/
def nowSecSweep : ℤ := toSeconds 2024 5 25 13 0 0

/-- Monitor state holding only the stale `T3` row. -/
def mStateT3 : MonitorState :=
  { trip_state_items := [staleItemT3], quarantined := [], alerts := [] }

/-- A scanned row with an out-of-range fare and no other anomaly, for
trip id `i`. -/
def fare600Item (i : String) : PyDict :=
  [("trip_id", .str i), ("trip_end", .dict [("fare_amount", .num 600)])]

/-- Eleven distinct rows that each trigger exactly one `Suspicious fare`
issue. -/
def elevenItems : List PyDict :=
  [fare600Item "A01", fare600Item "A02", fare600Item "A03", fare600Item "A04",
   fare600Item "A05", fare600Item "A06", fare600Item "A07", fare600Item "A08",
   fare600Item "A09", fare600Item "A10", fare600Item "A11"]

/-- Monitor state holding the eleven suspicious rows. -/
def elevenState : MonitorState :=
  { trip_state_items := elevenItems, quarantined := [], alerts := [] }

/-- A batch in which every record is quarantined: missing `event_type`
(INVALID_SCHEMA), unmatched end (ORPHAN_END), unknown type
(UNKNOWN_EVENT_TYPE), and an unparseable fare (PROCESSING_ERROR). -/
def allQuarantinedBatch : List PyVal :=
  [.dict [("data", .dict [("trip_id", .str "B1")])],
   mkPayload "trip_end" (.dict [("trip_id", .str "B2")]),
   mkPayload "trip_off" (.dict [("trip_id", .str "B3")]),
   mkPayload "trip_start"
     (.dict [("trip_id", .str "B4"), ("estimated_fare_amount", .str "abc")])]

theorem getAssoc_putAssoc_self {α : Type} (t : List (String × α)) (k : String) (v : α) :
    getAssoc (putAssoc t k v) k = Option.some v := by
  induction t with
  | nil => simp [putAssoc, getAssoc]
  | cons p r ih =>
    obtain ⟨k0, v0⟩ := p
    by_cases h : k0 = k
    · simp [putAssoc, getAssoc, h]
    · simp [putAssoc, getAssoc, h, ih]

theorem putAssoc_eq_self {α : Type} (t : List (String × α)) (k : String) (v : α)
    (h : getAssoc t k = Option.some v) : putAssoc t k v = t := by
  induction t with
  | nil => simp [getAssoc] at h
  | cons p r ih =>
    obtain ⟨k0, v0⟩ := p
    by_cases hk : k0 = k
    · simp [getAssoc, hk] at h
      simp [putAssoc, hk, h]
    · simp [getAssoc, hk] at h
      simp [putAssoc, hk, ih h]

theorem truthy_dict_of_dlookup {d : PyDict} {k : String} {v : PyVal}
    (h : dlookup d k = Option.some v) : truthy (.dict d) = true := by
  cases d with
  | nil => simp [dlookup] at h
  | cons p r => simp [truthy]

/-- Claim C1: for every trip identifier, processing a `trip_start` event
and then a `trip_end` event for that identifier (from any prior engine
state, with payloads whose fare fields convert to floats) yields a stored
`trip_state` record in the `COMPLETE` state whose stored start data is
exactly the `trip_start` payload and whose stored end data is exactly the
`trip_end` payload. -/
theorem C1_start_then_end (now1 now2 : String) (st : EngineState) (sd ed : PyDict)
    (tid : String) (f1 f2 : ℚ)
    (hsd : dlookup sd "trip_id" = Option.some (.str tid))
    (hed : dlookup ed "trip_id" = Option.some (.str tid))
    (htid : tid ≠ "")
    (hf1 : pyFloat ((dlookup sd "estimated_fare_amount").getD (.num 0)) = .ok f1)
    (hf2 : pyFloat ((dlookup ed "fare_amount").getD (.num 0)) = .ok f2) :
    ∃ st1 st2 item,
      process_record now1 st (mkPayload "trip_start" (.dict sd)) = .ok st1 ∧
      process_record now2 st1 (mkPayload "trip_end" (.dict ed)) = .ok st2 ∧
      getAssoc st2.trip_state tid = Option.some item ∧
      item.state = Option.some "COMPLETE" ∧
      item.trip_start_data = Option.some (.dict sd) ∧
      item.trip_end_data = Option.some (.dict ed) := by
  have hsdne : sd ≠ [] := by
    intro hnil
    rw [hnil] at hsd
    simp [dlookup] at hsd
  have hedne : ed ≠ [] := by
    intro hnil
    rw [hnil] at hed
    simp [dlookup] at hed
  set old := (getAssoc st.trip_state tid).getD {} with hold
  set upd1 : TripItem :=
    { old with
      pickup_datetime := Option.some ((dlookup sd "pickup_datetime").getD .pnone)
      estimated_fare_amount := Option.some f1
      trip_start_data := Option.some (.dict sd)
      state := Option.some (old.state.getD "PARTIAL") } with hupd1
  set st1 : EngineState := { st with trip_state := putAssoc st.trip_state tid upd1 } with hst1
  have h1 : process_record now1 st (mkPayload "trip_start" (.dict sd)) = .ok st1 := by
    simp [process_record, mkPayload, pyGet, dlookup, hsd, truthy, htid,
      List.isEmpty_iff, hsdne, pyEqStr, handle_trip_start, pyGetD, hf1, asKey, hst1, hupd1]
  set upd2 : TripItem :=
    { upd1 with
      dropoff_datetime := Option.some ((dlookup ed "dropoff_datetime").getD .pnone)
      fare_amount := Option.some f2
      trip_end_data := Option.some (.dict ed)
      state := Option.some "COMPLETE" } with hupd2
  set st2 : EngineState :=
    { st1 with trip_state := putAssoc st1.trip_state tid upd2 } with hst2
  have hget1 : getAssoc st1.trip_state tid = Option.some upd1 := by
    rw [hst1]
    exact getAssoc_putAssoc_self st.trip_state tid upd1
  have h2 : process_record now2 st1 (mkPayload "trip_end" (.dict ed)) = .ok st2 := by
    simp [process_record, mkPayload, pyGet, dlookup, hed, truthy, htid,
      List.isEmpty_iff, hedne, pyEqStr, handle_trip_end, pyGetD, hf2, asKey, hget1, hst2, hupd2]
  refine ⟨st1, st2, upd2, h1, h2, ?_, rfl, rfl, rfl⟩
  rw [hst2]
  exact getAssoc_putAssoc_self st1.trip_state tid upd2

/-- Witness for C1 at the spec's worked scenario payloads. -/
theorem C1_witness :
    ∃ st1 st2 item,
      process_record "n1" { trip_state := [], quarantined := [] }
        (mkPayload "trip_start" (.dict startDataT1)) = .ok st1 ∧
      process_record "n2" st1 (mkPayload "trip_end" (.dict endDataT1)) = .ok st2 ∧
      getAssoc st2.trip_state "T1" = Option.some item ∧
      item.state = Option.some "COMPLETE" ∧
      item.trip_start_data = Option.some (.dict startDataT1) ∧
      item.trip_end_data = Option.some (.dict endDataT1) :=
  C1_start_then_end "n1" "n2" { trip_state := [], quarantined := [] }
    startDataT1 endDataT1 "T1" 34.18 40.09 rfl rfl (by simp) rfl rfl

/-- Claim C2: for every trip identifier, processing a `trip_end` event
when no `trip_state` record exists for that identifier leaves the state
store unchanged and appends exactly one quarantine record, whose reason
is `ORPHAN_END` and whose `trip_id` is the event's identifier. -/
theorem C2_orphan_end (now : String) (st : EngineState) (ed : PyDict) (tid : String)
    (hed : dlookup ed "trip_id" = Option.some (.str tid))
    (htid : tid ≠ "")
    (habsent : getAssoc st.trip_state tid = Option.none) :
    process_record now st (mkPayload "trip_end" (.dict ed)) =
      .ok { st with quarantined :=
        st.quarantined ++ [quarantine now (.str tid) (.dict ed) "ORPHAN_END"] } ∧
    (quarantine now (.str tid) (.dict ed) "ORPHAN_END").reason = "ORPHAN_END" ∧
    (quarantine now (.str tid) (.dict ed) "ORPHAN_END").trip_id = .str tid := by
  have hedne : ed ≠ [] := by
    intro hnil
    rw [hnil] at hed
    simp [dlookup] at hed
  refine ⟨?_, rfl, ?_⟩
  · simp [process_record, mkPayload, pyGet, dlookup, hed, truthy, htid,
      List.isEmpty_iff, hedne, pyEqStr, handle_trip_end, asKey, habsent]
  · simp [quarantine, truthy, htid]

/-- Witness for C2 at the spec's scenario: an end for `T2` with fare 0.5
and no prior start. -/
theorem C2_witness :
    process_record "n" { trip_state := [], quarantined := [] }
      (mkPayload "trip_end"
        (.dict [("trip_id", .str "T2"), ("fare_amount", .num 0.5)])) =
      .ok { trip_state := [], quarantined :=
        [quarantine "n" (.str "T2")
          (.dict [("trip_id", .str "T2"), ("fare_amount", .num 0.5)]) "ORPHAN_END"] } ∧
    (quarantine "n" (.str "T2")
      (.dict [("trip_id", .str "T2"), ("fare_amount", .num 0.5)]) "ORPHAN_END").reason =
      "ORPHAN_END" ∧
    (quarantine "n" (.str "T2")
      (.dict [("trip_id", .str "T2"), ("fare_amount", .num 0.5)]) "ORPHAN_END").trip_id =
      .str "T2" :=
  C2_orphan_end "n" { trip_state := [], quarantined := [] }
    [("trip_id", .str "T2"), ("fare_amount", .num 0.5)] "T2" rfl (by simp) rfl

/-- Claim C5: for every existing `trip_state` record (whatever its
status), a `trip_start` event overwrites the stored start fields with the
incoming payload, leaves the status exactly as it was, keeps the stored
end fields, and quarantines nothing. -/
theorem C5_restart_keeps_status (now : String) (st : EngineState) (tid s0 : String)
    (old : TripItem) (sd : PyDict) (f : ℚ)
    (hold : getAssoc st.trip_state tid = Option.some old)
    (hstate : old.state = Option.some s0)
    (hsd : dlookup sd "trip_id" = Option.some (.str tid))
    (htid : tid ≠ "")
    (hf : pyFloat ((dlookup sd "estimated_fare_amount").getD (.num 0)) = .ok f) :
    ∃ st2,
      process_record now st (mkPayload "trip_start" (.dict sd)) = .ok st2 ∧
      st2.quarantined = st.quarantined ∧
      getAssoc st2.trip_state tid = Option.some
        { old with
          pickup_datetime := Option.some ((dlookup sd "pickup_datetime").getD .pnone)
          estimated_fare_amount := Option.some f
          trip_start_data := Option.some (.dict sd)
          state := Option.some s0 } := by
  have hsdne : sd ≠ [] := by
    intro hnil
    rw [hnil] at hsd
    simp [dlookup] at hsd
  set upd : TripItem :=
    { old with
      pickup_datetime := Option.some ((dlookup sd "pickup_datetime").getD .pnone)
      estimated_fare_amount := Option.some f
      trip_start_data := Option.some (.dict sd)
      state := Option.some s0 } with hupd
  refine ⟨{ st with trip_state := putAssoc st.trip_state tid upd }, ?_, rfl, ?_⟩
  · simp [process_record, mkPayload, pyGet, dlookup, hsd, truthy, htid,
      List.isEmpty_iff, hsdne, pyEqStr, handle_trip_start, pyGetD, hf, asKey,
      hold, hupd, hstate]
  · exact getAssoc_putAssoc_self st.trip_state tid upd

/-- Witness for C5: re-applying a start with a different estimated fare
to the already-`COMPLETE` `T1` record keeps status `COMPLETE` and the
stored end data. -/
theorem C5_witness :
    ∃ st2,
      process_record "n" stT1complete
        (mkPayload "trip_start"
          (.dict [("trip_id", .str "T1"), ("estimated_fare_amount", .num 99),
                  ("pickup_datetime", .str "2024-05-25T13:20:00Z")])) = .ok st2 ∧
      st2.quarantined = stT1complete.quarantined ∧
      getAssoc st2.trip_state "T1" = Option.some
        { itemT1complete with
          pickup_datetime := Option.some
            ((dlookup [("trip_id", .str "T1"), ("estimated_fare_amount", .num 99),
                       ("pickup_datetime", .str "2024-05-25T13:20:00Z")]
              "pickup_datetime").getD .pnone)
          estimated_fare_amount := Option.some 99
          trip_start_data := Option.some
            (.dict [("trip_id", .str "T1"), ("estimated_fare_amount", .num 99),
                    ("pickup_datetime", .str "2024-05-25T13:20:00Z")])
          state := Option.some "COMPLETE" } :=
  C5_restart_keeps_status "n" stT1complete "T1" "COMPLETE" itemT1complete
    [("trip_id", .str "T1"), ("estimated_fare_amount", .num 99),
     ("pickup_datetime", .str "2024-05-25T13:20:00Z")] 99
    rfl rfl rfl (by simp) rfl

/-- Counterexample to claim C3: the engine has no duplicate-end policy.
Processing a `trip_end` whose payload differs from the stored end data of
the already-`COMPLETE` `T1` record appends no quarantine entry at all (in
particular none with reason `DUPLICATE_END`) and overwrites the stored
end fields with the new payload. -/
theorem C3_counterexample :
    ∃ st2,
      process_record "n" stT1complete (mkPayload "trip_end" (.dict endDataT1b)) = .ok st2 ∧
      st2.quarantined = [] ∧
      getAssoc st2.trip_state "T1" = Option.some
        { itemT1complete with
          dropoff_datetime := Option.some (.str "2024-05-25T15:00:00Z")
          fare_amount := Option.some 50
          trip_end_data := Option.some (.dict endDataT1b) } := by
  refine ⟨_, rfl, ?_, ?_⟩
  · simp [process_record, mkPayload, pyGet, dlookup, truthy, pyEqStr,
      handle_trip_end, pyGetD, pyFloat, asKey, stT1complete, endDataT1b, getAssoc]
  · simp [process_record, mkPayload, pyGet, dlookup, truthy, pyEqStr,
      handle_trip_end, pyGetD, pyFloat, asKey, stT1complete, endDataT1b,
      itemT1complete, getAssoc, putAssoc, endDataT1]

/-- Claim C3 as amended: for a `COMPLETE` record whose stored end fields
were produced from end payload `ed`, re-processing the identical `ed` is
a no-op (the overwrite writes back the same values) and appends no
quarantine entry; processing a different end payload `ed2` also appends
no quarantine entry — there is no `DUPLICATE_END` reason in the code —
and instead overwrites the stored end fields with `ed2`, the status
staying `COMPLETE`. -/
theorem C3_amended (now : String) (st : EngineState) (tid : String) (old : TripItem)
    (ed ed2 : PyDict) (f f2 : ℚ)
    (hold : getAssoc st.trip_state tid = Option.some old)
    (hed : dlookup ed "trip_id" = Option.some (.str tid))
    (hed2 : dlookup ed2 "trip_id" = Option.some (.str tid))
    (htid : tid ≠ "")
    (hdrop : old.dropoff_datetime = Option.some ((dlookup ed "dropoff_datetime").getD .pnone))
    (hfareEq : pyFloat ((dlookup ed "fare_amount").getD (.num 0)) = .ok f)
    (hfareOld : old.fare_amount = Option.some f)
    (hendData : old.trip_end_data = Option.some (.dict ed))
    (hstate : old.state = Option.some "COMPLETE")
    (hf2 : pyFloat ((dlookup ed2 "fare_amount").getD (.num 0)) = .ok f2) :
    process_record now st (mkPayload "trip_end" (.dict ed)) = .ok st ∧
    ∃ st2,
      process_record now st (mkPayload "trip_end" (.dict ed2)) = .ok st2 ∧
      st2.quarantined = st.quarantined ∧
      getAssoc st2.trip_state tid = Option.some
        { old with
          dropoff_datetime := Option.some ((dlookup ed2 "dropoff_datetime").getD .pnone)
          fare_amount := Option.some f2
          trip_end_data := Option.some (.dict ed2)
          state := Option.some "COMPLETE" } := by
  have hedne : ed ≠ [] := by
    intro hnil
    rw [hnil] at hed
    simp [dlookup] at hed
  have hed2ne : ed2 ≠ [] := by
    intro hnil
    rw [hnil] at hed2
    simp [dlookup] at hed2
  constructor
  · have hsame :
        ({ old with
            dropoff_datetime := Option.some ((dlookup ed "dropoff_datetime").getD .pnone)
            fare_amount := Option.some f
            trip_end_data := Option.some (.dict ed)
            state := Option.some "COMPLETE" } : TripItem) = old := by
      obtain ⟨p1, p2, p3, p4, p5, p6, p7⟩ := old
      simp at hdrop hfareOld hendData hstate
      simp [hdrop, hfareOld, hendData, hstate]
    have hput : putAssoc st.trip_state tid old = st.trip_state :=
      putAssoc_eq_self st.trip_state tid old hold
    simp [process_record, mkPayload, pyGet, dlookup, hed, truthy, htid,
      List.isEmpty_iff, hedne, pyEqStr, handle_trip_end, pyGetD, hfareEq, asKey,
      hold, hsame, hput]
  · set upd : TripItem :=
      { old with
        dropoff_datetime := Option.some ((dlookup ed2 "dropoff_datetime").getD .pnone)
        fare_amount := Option.some f2
        trip_end_data := Option.some (.dict ed2)
        state := Option.some "COMPLETE" } with hupd
    refine ⟨{ st with trip_state := putAssoc st.trip_state tid upd }, ?_, rfl, ?_⟩
    · simp [process_record, mkPayload, pyGet, dlookup, hed2, truthy, htid,
        List.isEmpty_iff, hed2ne, pyEqStr, handle_trip_end, pyGetD, hf2, asKey,
        hold, hupd]
    · exact getAssoc_putAssoc_self st.trip_state tid upd

/-- Witness for the amended C3 at the completed `T1` record: the
identical end payload is a no-op, the different one overwrites. -/
theorem C3_witness :
    process_record "n" stT1complete (mkPayload "trip_end" (.dict endDataT1)) =
      .ok stT1complete ∧
    ∃ st2,
      process_record "n" stT1complete (mkPayload "trip_end" (.dict endDataT1b)) = .ok st2 ∧
      st2.quarantined = stT1complete.quarantined ∧
      getAssoc st2.trip_state "T1" = Option.some
        { itemT1complete with
          dropoff_datetime := Option.some ((dlookup endDataT1b "dropoff_datetime").getD .pnone)
          fare_amount := Option.some 50
          trip_end_data := Option.some (.dict endDataT1b)
          state := Option.some "COMPLETE" } :=
  C3_amended "n" stT1complete "T1" itemT1complete endDataT1 endDataT1b 40.09 50
    rfl rfl rfl (by simp) rfl rfl rfl rfl rfl rfl

/-- Claim C4 (code bug): contrary to the spec's no-uncaught-faults rule, a
payload whose `data` field is missing (so `payload.get("data")` is
`None`) makes the handler raise an uncaught `AttributeError` at
`event_data.get("trip_id")` — line 15 of `lambda_processor.py`, outside
the `try` and before the `INVALID_SCHEMA` guard on line 17 that was
evidently meant to quarantine exactly such events. -/
theorem C4_missing_data_uncaught (now : String) (st : EngineState) :
    process_record now st (.dict [("event_type", .str "trip_start")]) =
      .error .attributeError := by
  simp [process_record, pyGet, dlookup]

/-- Claim C10: whenever the batch handler finishes without an uncaught
exception — however many records were quarantined — it returns
`statusCode 200`, so the caller receives no per-record failure signal. -/
theorem C10_returns_200 (now : String) (st : EngineState) (records : List PyVal)
    (res : EngineState × Nat)
    (h : lambda_handler now st records = .ok res) : res.2 = 200 := by
  induction records generalizing st with
  | nil =>
    simp [lambda_handler] at h
    rw [← h]
  | cons r rs ih =>
    simp only [lambda_handler] at h
    cases hpr : process_record now st r with
    | error e => rw [hpr] at h; simp at h
    | ok stNew => rw [hpr] at h; exact ih stNew h

/-- Witness for C10: a batch in which every record is quarantined
(INVALID_SCHEMA, ORPHAN_END, UNKNOWN_EVENT_TYPE, PROCESSING_ERROR) still
returns 200. -/
theorem C10_witness :
    ∃ res, lambda_handler "t" { trip_state := [], quarantined := [] }
        allQuarantinedBatch = .ok res ∧ res.2 = 200 := by
  have h : lambda_handler "t" { trip_state := [], quarantined := [] }
      allQuarantinedBatch =
      .ok ({ trip_state := [],
             quarantined :=
               [quarantine "t" (.str "UNKNOWN")
                  (.dict [("data", .dict [("trip_id", .str "B1")])]) "INVALID_SCHEMA",
                quarantine "t" (.str "B2") (.dict [("trip_id", .str "B2")]) "ORPHAN_END",
                quarantine "t" (.str "B3")
                  (mkPayload "trip_off" (.dict [("trip_id", .str "B3")]))
                  "UNKNOWN_EVENT_TYPE",
                quarantine "t" (.str "B4")
                  (mkPayload "trip_start"
                    (.dict [("trip_id", .str "B4"), ("estimated_fare_amount", .str "abc")]))
                  ("PROCESSING_ERROR: " ++ errText .valueError)] }, 200) := by
    rfl
  exact ⟨_, h, C10_returns_200 "t" { trip_state := [], quarantined := [] }
    allQuarantinedBatch _ h⟩

theorem writeAllKpis_ok_of_ok (L : List (String × List PyDict)) (s t s1 : S3Store)
    (h : writeAllKpis s L = .ok s1) : ∃ t1, writeAllKpis t L = .ok t1 := by
  induction L generalizing s t with
  | nil => exact ⟨t, rfl⟩
  | cons p rest ih =>
    obtain ⟨d, ts⟩ := p
    simp only [writeAllKpis] at h ⊢
    cases hc : calculate_kpis ts with
    | error e => rw [hc] at h; simp at h
    | ok kpi => rw [hc] at h; exact ih _ _ h

theorem writeAllKpis_pointwise (L : List (String × List PyDict)) (s t s1 t1 : S3Store)
    (hs : writeAllKpis s L = .ok s1) (ht : writeAllKpis t L = .ok t1) (k : String) :
    s1 k = t1 k ∨ (s1 k = s k ∧ t1 k = t k) := by
  induction L generalizing s t with
  | nil =>
    simp [writeAllKpis] at hs ht
    right
    rw [← hs, ← ht]
    exact ⟨rfl, rfl⟩
  | cons p rest ih =>
    obtain ⟨d, ts⟩ := p
    simp only [writeAllKpis] at hs ht
    cases hc : calculate_kpis ts with
    | error e => rw [hc] at hs; simp at hs
    | ok kpi =>
      rw [hc] at hs ht
      rcases ih _ _ hs ht with heq | ⟨h1, h2⟩
      · exact Or.inl heq
      · by_cases hk : k = d
        · exact Or.inl (by rw [h1, h2]; simp [write_to_s3, hk])
        · exact Or.inr ⟨by rw [h1]; simp [write_to_s3, hk], by rw [h2]; simp [write_to_s3, hk]⟩

/-- Claim C7: the daily KPI aggregation is a pure function of the scanned
`COMPLETE` set — re-running it on the same trips with no intervening
store writes reproduces exactly the same per-date outputs (the second run
overwrites every date object with identical content, leaving the output
store fixed; no incremental counters are carried between runs). -/
theorem C7_idempotent (trips : List PyDict) (s3 s3A : S3Store)
    (h : aggregation_main trips s3 = .ok s3A) :
    aggregation_main trips s3A = .ok s3A := by
  unfold aggregation_main at h ⊢
  cases hg : group_by_date trips with
  | error e => rw [hg] at h; simp at h
  | ok grouped =>
    rw [hg] at h
    obtain ⟨s3B, hB⟩ := writeAllKpis_ok_of_ok grouped s3 s3A s3A h
    have hEq : s3B = s3A := by
      funext k
      rcases writeAllKpis_pointwise grouped s3 s3A s3A s3B h hB k with heq | ⟨_, h2⟩
      · exact heq.symm
      · exact h2
    show writeAllKpis s3A grouped = Except.ok s3A
    rw [hB, hEq]

theorem calculate_kpis_tripRowSpace : calculate_kpis [tripRowSpace] = .ok kpiSpace := by
  simp [calculate_kpis, extractFares, tripFare, pyIndex, tripRowSpace, dlookup,
    pyFloat, kpiSpace]
  norm_num [listSum, listMax, listMin, round2, round_eq]

theorem dateKey_space : dateKey "2024-06-01 09:30:00" = "2024-06-01" := by decide

theorem aggregation_run_space :
    aggregation_main [tripRowSpace] emptyS3 =
      .ok (write_to_s3 emptyS3 "2024-06-01" kpiSpace) := by
  have hc := calculate_kpis_tripRowSpace
  simp only [tripRowSpace] at hc
  simp [aggregation_main, group_by_date, group_by_date_from, pyIndex, pyGet, dlookup,
    tripRowSpace, truthy, dateKey_space, addToGroup, writeAllKpis, hc]

/-- Witness for C7: aggregating a single completed trip twice yields the
same stored per-date KPI object. -/
theorem C7_witness :
    ∃ s3A, aggregation_main [tripRowSpace] emptyS3 = .ok s3A ∧
      aggregation_main [tripRowSpace] s3A = .ok s3A :=
  ⟨_, aggregation_run_space,
    C7_idempotent [tripRowSpace] emptyS3 _ aggregation_run_space⟩

theorem calculate_kpis_tripRowT1 : calculate_kpis [tripRowT1] = .ok kpiT1 := by
  simp [calculate_kpis, extractFares, tripFare, pyIndex, tripRowT1, dlookup,
    pyFloat, kpiT1]
  norm_num [listSum, listMax, listMin, round2, round_eq]

theorem dateKey_isoT1 : dateKey "2024-05-25T14:05:00Z" = "2024-05-25T14:05:00Z" := by decide

theorem aggregation_run_T1 :
    aggregation_main [tripRowT1] emptyS3 =
      .ok (write_to_s3 emptyS3 "2024-05-25T14:05:00Z" kpiT1) := by
  have hc := calculate_kpis_tripRowT1
  simp only [tripRowT1] at hc
  simp [aggregation_main, group_by_date, group_by_date_from, pyIndex, pyGet, dlookup,
    tripRowT1, truthy, dateKey_isoT1, addToGroup, writeAllKpis, hc]

/-- Counterexample to claim C6: the scenario's ISO dropoff timestamp
`2024-05-25T14:05:00Z` contains no space, so the aggregator's
`split(" ")[0]` grouping key is the whole timestamp, and the daily
aggregation run stores nothing under the date `2024-05-25` — the claimed
metrics for that date do not exist. -/
theorem C6_counterexample :
    ∃ s3A, aggregation_main [tripRowT1] emptyS3 = .ok s3A ∧
      s3A "2024-05-25" = Option.none := by
  refine ⟨_, aggregation_run_T1, ?_⟩
  simp [write_to_s3, emptyS3]

/-- Claim C6 as amended: the engine completes `T1` with exactly the
scenario's start and end data stored; the local processor derives
`completion_date = "2024-05-25"` from the end event's timestamp; and the
daily aggregation stores the metrics `count 1, total 40.09, average
40.09, max 40.09, min 40.09` — but under the object key
`"2024-05-25T14:05:00Z"` (the dropoff string itself), not under the date
`"2024-05-25"`. -/
theorem C6_amended :
    lambda_handler "n" { trip_state := [], quarantined := [] }
      [mkPayload "trip_start" (.dict startDataT1), mkPayload "trip_end" (.dict endDataT1)] =
      .ok (stT1complete, 200) ∧
    (∃ db2,
      process_trip_end_local (process_trip_start_local [] "T1" (.dict startDataT1))
        "T1" "2024-05-25T14:05:00Z" (.dict endDataT1) = Option.some (db2, "2024-05-25") ∧
      getAssoc db2 "T1" = Option.some
        { status := "completed"
          trip_start_data := Option.some (.dict startDataT1)
          trip_end_data := Option.some (.dict endDataT1)
          completion_date := Option.some "2024-05-25" }) ∧
    ∃ s3A, aggregation_main [tripRowT1] emptyS3 = .ok s3A ∧
      s3A "2024-05-25T14:05:00Z" = Option.some kpiT1 := by
  refine ⟨rfl, ⟨[("T1",
    { status := "completed"
      trip_start_data := Option.some (.dict startDataT1)
      trip_end_data := Option.some (.dict endDataT1)
      completion_date := Option.some "2024-05-25" })], rfl, rfl⟩,
    _, aggregation_run_T1, ?_⟩
  simp [write_to_s3, emptyS3]

theorem sweepItems_acc_mem (nowSec : ℤ) (nowStr : String) (items : List PyDict)
    (seen : List PyVal) (acc issues : List IssueRecord)
    (h : sweepItems nowSec nowStr seen acc items = .ok issues) :
    ∀ q ∈ acc, q ∈ issues := by
  induction items generalizing seen acc with
  | nil =>
    simp [sweepItems] at h
    rw [h]
    exact fun q hq => hq
  | cons item rest ih =>
    simp only [sweepItems] at h
    cases hc : checkItem nowSec nowStr seen item with
    | error p => rw [hc] at h; simp at h
    | ok p =>
      obtain ⟨seen2, iss⟩ := p
      rw [hc] at h
      intro q hq
      exact ih seen2 (acc ++ iss) h q (by simp [hq])

theorem sweepItems_stale_flagged (nowSec : ℤ) (nowStr : String) (items : List PyDict)
    (seen : List PyVal) (acc issues : List IssueRecord) (item sd : PyDict)
    (pd : String) (t : ℤ)
    (hmem : item ∈ items)
    (hstatus : dlookup item "status" = Option.some (.str "started"))
    (hstart : dlookup item "trip_start" = Option.some (.dict sd))
    (hpd : dlookup sd "pickup_datetime" = Option.some (.str pd))
    (hparse : strptimeYmdHms pd = Option.some t)
    (hstale : nowSec - t > 21600)
    (h : sweepItems nowSec nowStr seen acc items = .ok issues) :
    ∃ q ∈ issues, q.trip_id = (dlookup item "trip_id").getD .pnone ∧
      q.reason = "Trip has not ended after 6+ hours" := by
  induction items generalizing seen acc with
  | nil => simp at hmem
  | cons hd rest ih =>
    simp only [sweepItems] at h
    cases hc : checkItem nowSec nowStr seen hd with
    | error p => rw [hc] at h; simp at h
    | ok p =>
      obtain ⟨seen2, iss⟩ := p
      rw [hc] at h
      rcases List.mem_cons.mp hmem with heq | hrest
      · subst heq
        set q : IssueRecord :=
          { trip_id := (dlookup item "trip_id").getD .pnone
            reason := "Trip has not ended after 6+ hours"
            raw_payload := item, ingest_time := nowStr } with hq
        have hstaleEq :
            staleCheck nowSec nowStr ((dlookup item "trip_id").getD .pnone)
              ((dlookup item "status").getD .pnone)
              ((dlookup item "trip_start").getD (.dict [])) item = [q] := by
          simp [staleCheck, hstatus, hstart, hpd, hparse, pyEqStr, hstale, hq]
        have hqiss : q ∈ iss := by
          simp only [checkItem] at hc
          cases hf : fareCheck nowStr ((dlookup item "trip_id").getD .pnone)
              ((dlookup item "trip_end").getD (.dict [])) item with
          | error e => rw [hf] at hc; simp at hc
          | ok fl =>
            rw [hf] at hc
            simp only [Except.ok.injEq, Prod.mk.injEq] at hc
            obtain ⟨hseen2, hiss⟩ := hc
            rw [← hiss, hstaleEq]
            simp
        exact ⟨q, sweepItems_acc_mem nowSec nowStr rest seen2 (acc ++ iss) issues h q
          (by simp [hqiss]), rfl, rfl⟩
      · exact ih seen2 (acc ++ iss) hrest h


/-- Counterexample to claim C8: sweeping a `started` record whose pickup
is seven hours old flags it, but the appended quarantine entry's reason
is the code's literal `"Trip has not ended after 6+ hours"`, not
`STALE_PARTIAL` — no entry with reason `STALE_PARTIAL` is ever written. -/
theorem C8_counterexample :
    ∃ q, (monitor_run nowSecSweep "ns" mStateT3).1.quarantined = [q] ∧
      q.reason = "Trip has not ended after 6+ hours" ∧
      q.reason ≠ "STALE_PARTIAL" ∧
      (monitor_run nowSecSweep "ns" mStateT3).1.trip_state_items = [staleItemT3] := by
  have hp : strptimeYmdHms "2024-05-25 06:00:00" =
      Option.some (toSeconds 2024 5 25 6 0 0) := by decide
  have hgt : nowSecSweep - toSeconds 2024 5 25 6 0 0 > 21600 := by decide
  have hrun : (monitor_run nowSecSweep "ns" mStateT3).1.quarantined =
      [{ trip_id := .str "T3", reason := "Trip has not ended after 6+ hours",
         raw_payload := staleItemT3, ingest_time := "ns" }] := by
    simp [monitor_run, mStateT3, sweepItems, checkItem, staleItemT3, dlookup,
      dupCheck, pyMem, staleCheck, orphanCheck, fareCheck, pyEqStr, truthy, hp, hgt]
  exact ⟨_, hrun, rfl, by simp, rfl⟩

/-- Claim C8 as amended: a completed sweep flags every `started` record
(the code's `PARTIAL` analog) whose parsed `pickup_datetime` lies more
than the 6-hour threshold before the sweep instant by appending a
quarantine entry with the record's `trip_id` and reason `"Trip has not
ended after 6+ hours"` (the code has no `STALE_PARTIAL` constant); and
the sweep never writes to the trip store — its only effects are
quarantine appends and at most one alert. -/
theorem C8_amended (nowSec : ℤ) (nowStr : String) (st : MonitorState) (item sd : PyDict)
    (pd : String) (t : ℤ)
    (hmem : item ∈ st.trip_state_items)
    (hstatus : dlookup item "status" = Option.some (.str "started"))
    (hstart : dlookup item "trip_start" = Option.some (.dict sd))
    (hpd : dlookup sd "pickup_datetime" = Option.some (.str pd))
    (hparse : strptimeYmdHms pd = Option.some t)
    (hstale : nowSec - t > 21600)
    (hok : (monitor_run nowSec nowStr st).2 = Option.none) :
    (monitor_run nowSec nowStr st).1.trip_state_items = st.trip_state_items ∧
    (∃ newIssues newAlerts,
      (monitor_run nowSec nowStr st).1.quarantined = st.quarantined ++ newIssues ∧
      (monitor_run nowSec nowStr st).1.alerts = st.alerts ++ newAlerts ∧
      newAlerts.length ≤ 1) ∧
    ∃ q ∈ (monitor_run nowSec nowStr st).1.quarantined,
      q.trip_id = (dlookup item "trip_id").getD .pnone ∧
      q.reason = "Trip has not ended after 6+ hours" := by
  cases hs : sweepItems nowSec nowStr [] [] st.trip_state_items with
  | error p =>
    obtain ⟨e, accp⟩ := p
    simp [monitor_run, hs] at hok
  | ok issues =>
    refine ⟨by simp [monitor_run, hs], ?_, ?_⟩
    · refine ⟨issues, send_alert issues, by simp [monitor_run, hs],
        by simp [monitor_run, hs], ?_⟩
      unfold send_alert
      split
      · simp
      · simp
    · obtain ⟨q, hq, h1, h2⟩ := sweepItems_stale_flagged nowSec nowStr
        st.trip_state_items [] [] issues item sd pd t hmem hstatus hstart hpd
        hparse hstale hs
      exact ⟨q, by simp [monitor_run, hs, hq], h1, h2⟩

/-- Witness for the amended C8 at the seven-hour-old `started` record
`T3`. -/
theorem C8_witness :
    (monitor_run nowSecSweep "ns" mStateT3).1.trip_state_items =
      mStateT3.trip_state_items ∧
    (∃ newIssues newAlerts,
      (monitor_run nowSecSweep "ns" mStateT3).1.quarantined =
        mStateT3.quarantined ++ newIssues ∧
      (monitor_run nowSecSweep "ns" mStateT3).1.alerts =
        mStateT3.alerts ++ newAlerts ∧
      newAlerts.length ≤ 1) ∧
    ∃ q ∈ (monitor_run nowSecSweep "ns" mStateT3).1.quarantined,
      q.trip_id = (dlookup staleItemT3 "trip_id").getD .pnone ∧
      q.reason = "Trip has not ended after 6+ hours" :=
  C8_amended nowSecSweep "ns" mStateT3 staleItemT3
    [("pickup_datetime", .str "2024-05-25 06:00:00")] "2024-05-25 06:00:00"
    (toSeconds 2024 5 25 6 0 0) (by simp [mStateT3]) rfl rfl rfl (by decide)
    (by decide) rfl

/-- Counterexample to claim C9: a sweep that flags eleven issues sends
one alert whose `issues` field holds only the first ten records
(`issues_logged[:10]`), so the alert does not contain the batch of all
issues flagged during the sweep. -/
theorem C9_counterexample :
    (monitor_run 0 "ns" elevenState).1.quarantined.length = 11 ∧
    (monitor_run 0 "ns" elevenState).1.alerts.length = 1 ∧
    ((monitor_run 0 "ns" elevenState).1.alerts.headD
      { total_issues := 0, issues := [] }).total_issues = 11 ∧
    ((monitor_run 0 "ns" elevenState).1.alerts.headD
      { total_issues := 0, issues := [] }).issues.length = 10 := by
  have h600 : ((600 : ℚ) < 1 ∨ (600 : ℚ) > 500) := by norm_num
  have h500 : (500 : ℚ) < 600 := by norm_num
  have h1no : ¬((600 : ℚ) < 1) := by norm_num
  simp [monitor_run, elevenState, elevenItems, fare600Item, sweepItems, checkItem,
    dlookup, dupCheck, pyMem, pyBeq, staleCheck, orphanCheck, fareCheck, pyEqStr,
    truthy, pyFloat, send_alert, h600, h500, h1no]

/-- Claim C9 as amended: a completed sweep dispatches at most one alert;
with zero issues no alert is sent, and with a non-empty issue list the
single alert carries the total issue count together with only the first
ten issue records. -/
theorem C9_amended (nowSec : ℤ) (nowStr : String) (st : MonitorState)
    (issues : List IssueRecord)
    (hok : sweepItems nowSec nowStr [] [] st.trip_state_items = .ok issues) :
    (monitor_run nowSec nowStr st).1.alerts =
      st.alerts ++ (if issues.isEmpty then []
        else [{ total_issues := issues.length, issues := issues.take 10 }]) ∧
    (monitor_run nowSec nowStr st).1.alerts.length ≤ st.alerts.length + 1 := by
  constructor
  · simp [monitor_run, hok, send_alert]
  · simp only [monitor_run, hok]
    unfold send_alert
    split
    · simp
    · simp

/-- Witness for the amended C9: an empty scan yields zero issues and no
alert. -/
theorem C9_witness :
    (monitor_run 0 "t" { trip_state_items := [], quarantined := [], alerts := [] }).1.alerts =
      ([] : List AlertMessage) ++ (if ([] : List IssueRecord).isEmpty then []
        else [{ total_issues := ([] : List IssueRecord).length,
                issues := ([] : List IssueRecord).take 10 }]) ∧
    (monitor_run 0 "t" { trip_state_items := [], quarantined := [], alerts := [] }).1.alerts.length ≤
      ([] : List AlertMessage).length + 1 :=
  C9_amended 0 "t" { trip_state_items := [], quarantined := [], alerts := [] } [] rfl
